import Mathlib

/-!
Shallow embedding of `src/users.py` (Pydantic v2 user models for an ERP
backend) and proofs about its validation behaviour.

Modelling conventions:
* Python strings are Lean `String` (a structure over `List Char`); the
  Python `str.strip` / `str.lower` / `str.isdigit` / `str.isupper`
  primitives are modelled on their ASCII behaviour (the repository only
  ever feeds them ASCII policy characters).
* An untyped Pydantic payload is a `FieldMap`: an association list from
  field names to dynamically typed `Value`s.  Pydantic v2 model
  construction is modelled per its documented semantics: every declared
  field is looked up and validated, missing required fields give a
  `missingField` error, extra keys are ignored (the models set no
  `extra` configuration, so the default `ignore` applies), and all
  field-level errors are aggregated into one composite list.  The one
  exception is `UserInDB.id`: its `PyObjectId` type only carries the
  Pydantic-v1 `__get_validators__` hook, which v2's deprecation shim
  invokes as `validate(value, info)` — a `TypeError` for the
  one-argument classmethod — so any supplied id aborts construction
  with an uncaught `TypeError` (see `storedIdField`).
* `bson.ObjectId` values are modelled as natural numbers below `16^24`;
  their string form is the 24-digit lowercase hex rendering, and
  `ObjectId.is_valid` on a string is "length 24 and all hex digits".
* `EmailStr` is modelled as a syntactic well-formedness check that
  returns the accepted string unchanged; `datetime` values are opaque
  naturals.  Neither abstraction affects the properties proved here.
-/

namespace ERPUsers

/-- ASCII model of Python whitespace as stripped by `str.strip()`. -/
def pyIsSpace (c : Char) : Bool :=
  c.toNat == 32 || c.toNat == 9 || c.toNat == 10 || c.toNat == 13 ||
  c.toNat == 11 || c.toNat == 12

/-- ASCII model of Python `str.lower` on a single character. -/
def pyToLower (c : Char) : Char :=
  if 65 ≤ c.toNat ∧ c.toNat ≤ 90 then Char.ofNat (c.toNat + 32) else c

/-- ASCII model of Python `str.isupper` on a single character. -/
def pyIsUpper (c : Char) : Bool := 65 ≤ c.toNat && c.toNat ≤ 90

/-- ASCII model of Python `str.isdigit` on a single character. -/
def pyIsDigit (c : Char) : Bool := 48 ≤ c.toNat && c.toNat ≤ 57

/-- Drop leading whitespace (the left half of `str.strip`). -/
def lstrip (l : List Char) : List Char := l.dropWhile pyIsSpace

/-- Drop trailing whitespace (the right half of `str.strip`). -/
def rstrip (l : List Char) : List Char := (l.reverse.dropWhile pyIsSpace).reverse

/-- Python `str.strip()` on the character list. -/
def pyStrip (l : List Char) : List Char := rstrip (lstrip l)

/-- Python `str.lower()` on the character list. -/
def pyLower (l : List Char) : List Char := l.map pyToLower

/-- `UserBase.normalise_email` from `src/users.py`: `v.strip().lower()`. -/
def normalise_email (s : String) : String := ⟨pyLower (pyStrip s.data)⟩

/-- Hex-digit test used by the `ObjectId` string validity predicate. -/
def isHexChar (c : Char) : Bool :=
  (48 ≤ c.toNat && c.toNat ≤ 57) ||
  (97 ≤ c.toNat && c.toNat ≤ 102) ||
  (65 ≤ c.toNat && c.toNat ≤ 70)

/-- `bson.ObjectId.is_valid` restricted to strings: 24 hex characters. -/
def isValidObjectId (s : String) : Bool :=
  s.data.length == 24 && s.data.all isHexChar

/-- One hex digit as a lowercase character (`0`-`9`, `a`-`f`). -/
def hexChar (n : Nat) : Char :=
  if n < 10 then Char.ofNat (48 + n) else Char.ofNat (87 + n)

/-- Numeric value of a hex character (inverse of `hexChar` on digits). -/
def hexVal (c : Char) : Nat :=
  if c.toNat ≤ 57 then c.toNat - 48
  else if c.toNat ≤ 70 then c.toNat - 55
  else c.toNat - 87

/-- `k` hex characters rendering `x` most-significant-first. -/
def toWireAux : Nat → Nat → List Char
  | 0, _ => []
  | k + 1, x => toWireAux k (x / 16) ++ [hexChar (x % 16)]

/-- `str(ObjectId)`: the canonical 24-digit lowercase hex wire string of
an internal identifier. -/
def toWire (x : Nat) : String := ⟨toWireAux 24 x⟩

/-- Interpret a hex string as a natural number (the decode direction of
the identifier codec). -/
def hexDecode (s : String) : Nat :=
  s.data.foldl (fun acc c => 16 * acc + hexVal c) 0

-- ── Dynamic values and field maps ────────────────────────────────────────

/-- A dynamically typed payload value, as Pydantic receives it. -/
inductive Value where
  | vStr : String → Value
  | vBool : Bool → Value
  | vOid : Nat → Value
  | vDatetime : Nat → Value
  | vNone : Value
deriving DecidableEq

/-- An untyped field mapping (a JSON-object-like payload). -/
abbrev FieldMap := List (String × Value)

/-- First binding of a key in a field mapping. -/
def getField (m : FieldMap) (k : String) : Option Value :=
  match m with
  | [] => none
  | (k', v) :: rest => if k' = k then some v else getField rest k

/-- Error taxonomy of the validation layer. -/
inductive ErrKind where
  | missingField
  | forbiddenField
  | invalidLength
  | invalidFormat
  | weakPassword
  | invalidIdentifier
  | invalidType
deriving DecidableEq

/-- A structured field-level validation error: offending field + reason. -/
structure FieldError where
  field : String
  kind : ErrKind
deriving DecidableEq

/-- `PyObjectId.validate` from `src/users.py`: an `ObjectId` instance is
rendered with `str`, a string must satisfy `ObjectId.is_valid`, anything
else raises `ValueError`. -/
def PyObjectId.validate (v : Value) : Except FieldError String :=
  match v with
  | .vOid n => .ok (toWire n)
  | .vStr s =>
      if isValidObjectId s then .ok s else .error ⟨"id", .invalidIdentifier⟩
  | .vBool _ => .error ⟨"id", .invalidIdentifier⟩
  | .vDatetime _ => .error ⟨"id", .invalidIdentifier⟩
  | .vNone => .error ⟨"id", .invalidIdentifier⟩

/-- The spec's `IdentifierCodec.fromWire`: `PyObjectId.validate` applied
to a candidate wire string. -/
def fromWire (s : String) : Except FieldError String :=
  PyObjectId.validate (.vStr s)

/-- `fromWire` followed by reading the accepted hex string back as the
internal (numeric) identifier value. -/
def fromWireDecoded (s : String) : Option Nat :=
  match fromWire s with
  | .ok t => some (hexDecode t)
  | .error _ => none

-- ── Roles ────────────────────────────────────────────────────────────────

/-- `UserRole` from `src/users.py`: closed string enumeration. -/
inductive UserRole where
  | admin
  | project_lead
  | member
  | intern
  | viewer
deriving DecidableEq

/-- The string value of a role (the `str`-enum payload). -/
def roleToString : UserRole → String
  | .admin => "admin"
  | .project_lead => "project_lead"
  | .member => "member"
  | .intern => "intern"
  | .viewer => "viewer"

/-- Parse a role from its string value (Pydantic `str`-enum coercion). -/
def roleFromString (s : String) : Option UserRole :=
  if s = "admin" then some .admin
  else if s = "project_lead" then some .project_lead
  else if s = "member" then some .member
  else if s = "intern" then some .intern
  else if s = "viewer" then some .viewer
  else none

-- ── Per-field validators ─────────────────────────────────────────────────

/-- Syntactic model of the `EmailStr` format check: exactly one `@`,
non-empty local part, non-empty domain containing a dot, no whitespace.
An accepted string is returned unchanged. -/
def emailFormatOk (s : String) : Bool :=
  let l := s.data
  l.count '@' == 1 &&
  !(l.takeWhile (fun c => !(c == '@'))).isEmpty &&
  (let domain := (l.dropWhile (fun c => !(c == '@'))).drop 1
   !domain.isEmpty && domain.contains '.') &&
  l.all (fun c => !pyIsSpace c)

/-- `UserBase.full_name`: required string, 2 ≤ length ≤ 100. -/
def validateCreateFullName (v : Value) : Except FieldError String :=
  match v with
  | .vStr s =>
      if s.length < 2 ∨ 100 < s.length then .error ⟨"full_name", .invalidLength⟩
      else .ok s
  | _ => .error ⟨"full_name", .invalidType⟩

/-- `UserBase.email`: the `mode="before"` validator `normalise_email`
runs first, then the `EmailStr` format check sees the canonical form. -/
def validateCreateEmail (v : Value) : Except FieldError String :=
  match v with
  | .vStr s =>
      let n := normalise_email s
      if emailFormatOk n then .ok n else .error ⟨"email", .invalidFormat⟩
  | _ => .error ⟨"email", .invalidType⟩

/-- `UserBase.role`: optional `str`-enum, defaults handled by the
caller. -/
def validateRole (v : Value) : Except FieldError UserRole :=
  match v with
  | .vStr s =>
      match roleFromString s with
      | some r => .ok r
      | none => .error ⟨"role", .invalidFormat⟩
  | _ => .error ⟨"role", .invalidType⟩

/-- `UserBase.is_active`: boolean field. -/
def validateBool (v : Value) : Except FieldError Bool :=
  match v with
  | .vBool b => .ok b
  | _ => .error ⟨"is_active", .invalidType⟩

/-- `UserBase.avatar_url`: nullable unconstrained string. -/
def validateAvatar (v : Value) : Except FieldError (Option String) :=
  match v with
  | .vNone => .ok none
  | .vStr s => .ok (some s)
  | _ => .error ⟨"avatar_url", .invalidType⟩

/-- `UserCreate.password_strength` from `src/users.py`: at least one
decimal digit and at least one uppercase letter, input returned
unchanged. -/
def password_strength (s : String) : Except FieldError String :=
  if !(s.data.any pyIsDigit) then .error ⟨"password", .weakPassword⟩
  else if !(s.data.any pyIsUpper) then .error ⟨"password", .weakPassword⟩
  else .ok s

/-- `UserCreate.password`: required string, `min_length=8` (checked by
the field constraint before the custom validator runs), then
`password_strength`. -/
def validatePassword (v : Value) : Except FieldError String :=
  match v with
  | .vStr s =>
      if s.length < 8 then .error ⟨"password", .invalidLength⟩
      else password_strength s
  | _ => .error ⟨"password", .invalidType⟩

-- ── Field lookup plumbing and error aggregation ──────────────────────────

/-- Validate a required field: absent keys give `missingField`. -/
def reqField {α : Type} (m : FieldMap) (name : String)
    (f : Value → Except FieldError α) : Except FieldError α :=
  match getField m name with
  | some v => f v
  | none => .error ⟨name, .missingField⟩

/-- Validate an optional field: absent keys give the declared default. -/
def optField {α : Type} (m : FieldMap) (name : String) (d : α)
    (f : Value → Except FieldError α) : Except FieldError α :=
  match getField m name with
  | some v => f v
  | none => .ok d

/-- The error contribution of one field's validation outcome. -/
def errOf {α : Type} : Except FieldError α → List FieldError
  | .ok _ => []
  | .error e => [e]

-- ── UserCreate ───────────────────────────────────────────────────────────

/-- The validated `UserCreate` shape. -/
structure UserCreate where
  full_name : String
  email : String
  role : UserRole
  is_active : Bool
  avatar_url : Option String
  password : String
deriving DecidableEq

/-- Pydantic construction of `UserCreate` from an untyped payload:
each declared field is validated, defaults fill absent optional fields,
extra keys are ignored, and all field errors are aggregated. -/
def buildUserCreate (m : FieldMap) : Except (List FieldError) UserCreate :=
  match reqField m "full_name" validateCreateFullName,
        reqField m "email" validateCreateEmail,
        optField m "role" UserRole.intern validateRole,
        optField m "is_active" true validateBool,
        optField m "avatar_url" none validateAvatar,
        reqField m "password" validatePassword with
  | .ok fn, .ok em, .ok rl, .ok ia, .ok av, .ok pw =>
      .ok ⟨fn, em, rl, ia, av, pw⟩
  | fn, em, rl, ia, av, pw =>
      .error (errOf fn ++ errOf em ++ errOf rl ++ errOf ia ++
              errOf av ++ errOf pw)

/-- The aggregated field-error list of a `UserCreate` payload. -/
def createFieldErrors (m : FieldMap) : List FieldError :=
  errOf (reqField m "full_name" validateCreateFullName) ++
  errOf (reqField m "email" validateCreateEmail) ++
  errOf (optField m "role" UserRole.intern validateRole) ++
  errOf (optField m "is_active" true validateBool) ++
  errOf (optField m "avatar_url" none validateAvatar) ++
  errOf (reqField m "password" validatePassword)

-- ── UserUpdate ───────────────────────────────────────────────────────────

/-- `UserUpdate.full_name`: optional string with the same 2..100 length
bounds as the `UserBase` field. -/
def validateUpdateFullName (v : Value) : Except FieldError (Option String) :=
  match v with
  | .vNone => .ok none
  | .vStr s =>
      if s.length < 2 ∨ 100 < s.length then .error ⟨"full_name", .invalidLength⟩
      else .ok (some s)
  | _ => .error ⟨"full_name", .invalidType⟩

/-- `UserUpdate.email`: plain `Optional[EmailStr]`.  `UserUpdate`
extends `BaseModel`, not `UserBase`, so the `normalise_email` validator
does not apply here: only the format check runs. -/
def validateUpdateEmail (v : Value) : Except FieldError (Option String) :=
  match v with
  | .vNone => .ok none
  | .vStr s =>
      if emailFormatOk s then .ok (some s) else .error ⟨"email", .invalidFormat⟩
  | _ => .error ⟨"email", .invalidType⟩

/-- `UserUpdate.role`: optional `str`-enum. -/
def validateUpdateRole (v : Value) : Except FieldError (Option UserRole) :=
  match v with
  | .vNone => .ok none
  | .vStr s =>
      match roleFromString s with
      | some r => .ok (some r)
      | none => .error ⟨"role", .invalidFormat⟩
  | _ => .error ⟨"role", .invalidType⟩

/-- `UserUpdate.is_active`: optional boolean. -/
def validateUpdateBool (v : Value) : Except FieldError (Option Bool) :=
  match v with
  | .vNone => .ok none
  | .vBool b => .ok (some b)
  | _ => .error ⟨"is_active", .invalidType⟩

/-- The validated `UserUpdate` shape (all fields optional, PATCH
semantics). -/
structure UserUpdate where
  full_name : Option String
  email : Option String
  role : Option UserRole
  is_active : Option Bool
  avatar_url : Option String
deriving DecidableEq

/-- Pydantic construction of `UserUpdate` from an untyped payload. -/
def buildUserUpdate (m : FieldMap) : Except (List FieldError) UserUpdate :=
  match optField m "full_name" none validateUpdateFullName,
        optField m "email" none validateUpdateEmail,
        optField m "role" none validateUpdateRole,
        optField m "is_active" none validateUpdateBool,
        optField m "avatar_url" none validateAvatar with
  | .ok fn, .ok em, .ok rl, .ok ia, .ok av => .ok ⟨fn, em, rl, ia, av⟩
  | fn, em, rl, ia, av =>
      .error (errOf fn ++ errOf em ++ errOf rl ++ errOf ia ++ errOf av)

-- ── UserInDB ─────────────────────────────────────────────────────────────

/-- The validated `UserInDB` shape (the stored document).  `id` is
`Optional[PyObjectId]` with `default=None` in the source. -/
structure UserInDB where
  full_name : String
  email : String
  role : UserRole
  is_active : Bool
  avatar_url : Option String
  id : Option String
  hashed_password : String
  created_at : Nat
  updated_at : Nat
deriving DecidableEq

/-- Alias-aware lookup: `populate_by_name=True` accepts the alias
(`_id`) or the field name (`id`), alias first. -/
def getAliasField (m : FieldMap) (aliasKey fieldName : String) : Option Value :=
  match getField m aliasKey with
  | some v => some v
  | none => getField m fieldName

/-- Outcome of the `UserInDB.id` field under Pydantic v2.  `PyObjectId`
exposes only the Pydantic-v1 `__get_validators__` hook (src lines
21-23), while the file otherwise requires Pydantic v2
(`field_validator`, `model_config` dicts).  V2's deprecation shim wraps
each yielded validator as an info-style plain validator and invokes it
as `validate(value, info)`; the one-argument classmethod therefore
raises `TypeError` for every supplied non-`None` value — syntactically
valid and invalid identifiers alike — and a `TypeError` is not
converted into a validation error: it escapes model construction.
`None` passes the `Optional` wrapper without reaching the hook, and an
absent key takes the declared default `None` without validation. -/
inductive StoredIdOutcome where
  | ok : Option String → StoredIdOutcome
  | typeError : StoredIdOutcome
deriving DecidableEq

/-- The `UserInDB.id` field (`Optional[PyObjectId] =
Field(default=None, alias="_id")`) as Pydantic v2 actually evaluates
it: absent or `None` gives `None`; any supplied non-`None` value
crashes with `TypeError` before `PyObjectId.validate` ever runs. -/
def storedIdField (m : FieldMap) : StoredIdOutcome :=
  match getAliasField m "_id" "id" with
  | none => .ok none
  | some .vNone => .ok none
  | some (.vStr _) => .typeError
  | some (.vOid _) => .typeError
  | some (.vBool _) => .typeError
  | some (.vDatetime _) => .typeError

/-- `UserInDB.hashed_password`: required unconstrained string. -/
def validateHashedPassword (v : Value) : Except FieldError String :=
  match v with
  | .vStr s => .ok s
  | _ => .error ⟨"hashed_password", .invalidType⟩

/-- A `datetime` field: an opaque timestamp value. -/
def validateDatetime (fieldName : String) (v : Value) : Except FieldError Nat :=
  match v with
  | .vDatetime n => .ok n
  | _ => .error ⟨fieldName, .invalidType⟩

/-- Result of `UserInDB` construction: success, an aggregated
Pydantic `ValidationError`, or an uncaught Python `TypeError` escaping
from the broken id-validator hook.  The `TypeError` aborts the whole
construction regardless of the other fields' outcomes. -/
inductive StoredResult where
  | ok : UserInDB → StoredResult
  | validationError : List FieldError → StoredResult
  | typeError : StoredResult
deriving DecidableEq

/-- Pydantic construction of `UserInDB` from an untyped payload.  The
`created_at` / `updated_at` `default_factory=datetime.utcnow` is made
explicit as the `now` parameter.  A supplied `_id`/`id` value raises
`TypeError` (see `storedIdField`); otherwise the remaining fields are
validated with all their errors aggregated. -/
def buildUserInDB (now : Nat) (m : FieldMap) : StoredResult :=
  match storedIdField m with
  | .typeError => .typeError
  | .ok idv =>
    match reqField m "full_name" validateCreateFullName,
          reqField m "email" validateCreateEmail,
          optField m "role" UserRole.intern validateRole,
          optField m "is_active" true validateBool,
          optField m "avatar_url" none validateAvatar,
          reqField m "hashed_password" validateHashedPassword,
          optField m "created_at" now (validateDatetime "created_at"),
          optField m "updated_at" now (validateDatetime "updated_at") with
    | .ok fn, .ok em, .ok rl, .ok ia, .ok av, .ok hp, .ok ca, .ok ua =>
        .ok ⟨fn, em, rl, ia, av, idv, hp, ca, ua⟩
    | fn, em, rl, ia, av, hp, ca, ua =>
        .validationError (errOf fn ++ errOf em ++ errOf rl ++ errOf ia ++
          errOf av ++ errOf hp ++ errOf ca ++ errOf ua)

-- ── UserResponse ─────────────────────────────────────────────────────────

/-- The validated `UserResponse` shape (the public API shape). -/
structure UserResponse where
  id : String
  full_name : String
  email : String
  role : UserRole
  is_active : Bool
  avatar_url : Option String
  created_at : Nat
  updated_at : Nat
deriving DecidableEq

/-- `UserResponse.id`: a plain required `str` — the source declares no
`PyObjectId` validation on this field. -/
def validateResponseId (v : Value) : Except FieldError String :=
  match v with
  | .vStr s => .ok s
  | _ => .error ⟨"id", .invalidType⟩

/-- `UserResponse.full_name`: plain required `str`, no length bounds
are declared on this shape. -/
def validateResponseFullName (v : Value) : Except FieldError String :=
  match v with
  | .vStr s => .ok s
  | _ => .error ⟨"full_name", .invalidType⟩

/-- `UserResponse.email`: `EmailStr` with no normalising validator
(`UserResponse` extends `BaseModel` only). -/
def validateResponseEmail (v : Value) : Except FieldError String :=
  match v with
  | .vStr s =>
      if emailFormatOk s then .ok s else .error ⟨"email", .invalidFormat⟩
  | _ => .error ⟨"email", .invalidType⟩

/-- Pydantic construction of `UserResponse` from an untyped payload.
All eight declared fields are required (`Optional[str]` with no default
is still a required field in Pydantic v2); any other key — in
particular `hashed_password` — is ignored. -/
def buildUserResponse (m : FieldMap) : Except (List FieldError) UserResponse :=
  match reqField m "id" validateResponseId,
        reqField m "full_name" validateResponseFullName,
        reqField m "email" validateResponseEmail,
        reqField m "role" validateRole,
        reqField m "is_active" validateBool,
        reqField m "avatar_url" validateAvatar,
        reqField m "created_at" (validateDatetime "created_at"),
        reqField m "updated_at" (validateDatetime "updated_at") with
  | .ok i, .ok fn, .ok em, .ok rl, .ok ia, .ok av, .ok ca, .ok ua =>
      .ok ⟨i, fn, em, rl, ia, av, ca, ua⟩
  | i, fn, em, rl, ia, av, ca, ua =>
      .error (errOf i ++ errOf fn ++ errOf em ++ errOf rl ++ errOf ia ++
              errOf av ++ errOf ca ++ errOf ua)

/-- The attribute mapping of a stored document, as
`UserResponse.model_validate(stored)` reads it with
`from_attributes=True`.  Note that `hashed_password` is present here —
it is the constructor of `UserResponse` that drops it. -/
def userInDBAttrs (u : UserInDB) : FieldMap :=
  [("id", match u.id with | some s => .vStr s | none => .vNone),
   ("full_name", .vStr u.full_name),
   ("email", .vStr u.email),
   ("role", .vStr (roleToString u.role)),
   ("is_active", .vBool u.is_active),
   ("avatar_url", match u.avatar_url with | some s => .vStr s | none => .vNone),
   ("hashed_password", .vStr u.hashed_password),
   ("created_at", .vDatetime u.created_at),
   ("updated_at", .vDatetime u.updated_at)]

/-- Deriving the public shape from a stored document:
`UserResponse.model_validate` over the stored attributes. -/
def deriveUserResponse (u : UserInDB) : Except (List FieldError) UserResponse :=
  buildUserResponse (userInDBAttrs u)

/-- `model_dump` of a `UserResponse`: the exact list of fields the
public shape serialises. -/
def dumpResponse (r : UserResponse) : FieldMap :=
  [("id", .vStr r.id),
   ("full_name", .vStr r.full_name),
   ("email", .vStr r.email),
   ("role", .vStr (roleToString r.role)),
   ("is_active", .vBool r.is_active),
   ("avatar_url", match r.avatar_url with | some s => .vStr s | none => .vNone),
   ("created_at", .vDatetime r.created_at),
   ("updated_at", .vDatetime r.updated_at)]

-- ── Character-level lemmas ───────────────────────────────────────────────

theorem char_toNat_ofNat {n : Nat} (h : n.isValidChar) :
    (Char.ofNat n).toNat = n := by
  simp [Char.ofNat, h, Char.ofNatAux, Char.toNat, UInt32.toNat,
    BitVec.toNat_ofNatLt]

theorem pyToLower_toNat_of_upper {c : Char} (h : 65 ≤ c.toNat ∧ c.toNat ≤ 90) :
    (pyToLower c).toNat = c.toNat + 32 := by
  have hv : (c.toNat + 32).isValidChar := by
    left
    omega
  simp [pyToLower, h, char_toNat_ofNat hv]

theorem pyIsSpace_pyToLower (c : Char) : pyIsSpace (pyToLower c) = pyIsSpace c := by
  by_cases h : 65 ≤ c.toNat ∧ c.toNat ≤ 90
  · have h1 := pyToLower_toNat_of_upper h
    rw [Bool.eq_iff_iff]
    simp only [pyIsSpace, h1, Bool.or_eq_true, beq_iff_eq]
    omega
  · simp [pyToLower, h]

theorem pyToLower_pyToLower (c : Char) :
    pyToLower (pyToLower c) = pyToLower c := by
  by_cases h : 65 ≤ c.toNat ∧ c.toNat ≤ 90
  · have h1 := pyToLower_toNat_of_upper h
    have : ¬ (65 ≤ (pyToLower c).toNat ∧ (pyToLower c).toNat ≤ 90) := by omega
    conv_lhs => rw [pyToLower]
    simp [this]
  · have : pyToLower c = c := by simp [pyToLower, h]
    rw [this, this]

theorem pyIsUpper_pyToLower (c : Char) : pyIsUpper (pyToLower c) = false := by
  by_cases h : 65 ≤ c.toNat ∧ c.toNat ≤ 90
  · have h1 := pyToLower_toNat_of_upper h
    simp only [pyIsUpper, h1]
    simp only [Bool.and_eq_false_iff, decide_eq_false_iff_not]
    omega
  · simp only [pyToLower, h, if_false, pyIsUpper]
    simp only [Bool.and_eq_false_iff, decide_eq_false_iff_not]
    omega

-- ── Strip / lower list lemmas ────────────────────────────────────────────

theorem dropWhile_dropWhile (p : Char → Bool) (l : List Char) :
    (l.dropWhile p).dropWhile p = l.dropWhile p := by
  induction l with
  | nil => rfl
  | cons a t ih =>
    by_cases h : p a
    · simp [List.dropWhile, h, ih]
    · simp [List.dropWhile, h]

theorem lstrip_lstrip (l : List Char) : lstrip (lstrip l) = lstrip l :=
  dropWhile_dropWhile pyIsSpace l

theorem rstrip_rstrip (l : List Char) : rstrip (rstrip l) = rstrip l := by
  unfold rstrip
  rw [List.reverse_reverse, dropWhile_dropWhile]

theorem head_not_space_of_lstrip_fixed {a : Char} {t : List Char}
    (h : lstrip (a :: t) = a :: t) : pyIsSpace a = false := by
  by_cases hp : pyIsSpace a
  · exfalso
    have h1 : lstrip (a :: t) = lstrip t := by simp [lstrip, List.dropWhile, hp]
    have h2 : (lstrip t).length ≤ t.length :=
      (List.dropWhile_sublist pyIsSpace).length_le
    rw [h] at h1
    have h3 : (a :: t).length = (lstrip t).length := congrArg List.length h1
    rw [List.length_cons] at h3
    omega
  · exact Bool.of_not_eq_true hp

theorem lstrip_rstrip_of_lstrip_fixed {l : List Char}
    (h : lstrip l = l) : lstrip (rstrip l) = rstrip l := by
  match l with
  | [] => rfl
  | a :: t =>
    have hp : pyIsSpace a = false := head_not_space_of_lstrip_fixed h
    have hr : rstrip (a :: t) =
        if (List.dropWhile pyIsSpace t.reverse).isEmpty
        then [a]
        else a :: (List.dropWhile pyIsSpace t.reverse).reverse := by
      unfold rstrip
      rw [List.reverse_cons, List.dropWhile_append]
      by_cases he : (List.dropWhile pyIsSpace t.reverse).isEmpty
      · simp [he, List.dropWhile, hp]
      · simp [he, List.dropWhile, hp]
    rw [hr]
    by_cases he : (List.dropWhile pyIsSpace t.reverse).isEmpty
    · simp [he, lstrip, List.dropWhile, hp]
    · simp [he, lstrip, List.dropWhile, hp]

theorem pyStrip_pyStrip (l : List Char) : pyStrip (pyStrip l) = pyStrip l := by
  unfold pyStrip
  rw [lstrip_rstrip_of_lstrip_fixed (lstrip_lstrip l), rstrip_rstrip]

theorem dropWhile_map_pyToLower (l : List Char) :
    (l.map pyToLower).dropWhile pyIsSpace =
      (l.dropWhile pyIsSpace).map pyToLower := by
  induction l with
  | nil => rfl
  | cons a t ih =>
    by_cases h : pyIsSpace a
    · have h2 : pyIsSpace (pyToLower a) = true := by
        rw [pyIsSpace_pyToLower]; exact h
      simp [List.dropWhile, h, h2, ih]
    · have h2 : pyIsSpace (pyToLower a) = false := by
        rw [pyIsSpace_pyToLower]; simpa using h
      simp [List.dropWhile, h, h2]

theorem lstrip_pyLower (l : List Char) :
    lstrip (pyLower l) = pyLower (lstrip l) :=
  dropWhile_map_pyToLower l

theorem rstrip_pyLower (l : List Char) :
    rstrip (pyLower l) = pyLower (rstrip l) := by
  unfold rstrip pyLower
  rw [← List.map_reverse, dropWhile_map_pyToLower, List.map_reverse]

theorem pyStrip_pyLower (l : List Char) :
    pyStrip (pyLower l) = pyLower (pyStrip l) := by
  unfold pyStrip
  rw [lstrip_pyLower, rstrip_pyLower]

theorem pyLower_pyLower (l : List Char) : pyLower (pyLower l) = pyLower l := by
  unfold pyLower
  rw [List.map_map]
  apply List.map_congr_left
  intro a _
  exact pyToLower_pyToLower a

-- ── Hex codec lemmas ─────────────────────────────────────────────────────

theorem hexChar_isHex {n : Nat} (h : n < 16) : isHexChar (hexChar n) = true := by
  interval_cases n <;> decide

theorem hexVal_hexChar {n : Nat} (h : n < 16) : hexVal (hexChar n) = n := by
  interval_cases n <;> decide

theorem toWireAux_length (k x : Nat) : (toWireAux k x).length = k := by
  induction k generalizing x with
  | zero => rfl
  | succ k ih => simp [toWireAux, ih]

theorem toWireAux_all_hex (k x : Nat) :
    (toWireAux k x).all isHexChar = true := by
  induction k generalizing x with
  | zero => rfl
  | succ k ih =>
    simp only [toWireAux, List.all_append, Bool.and_eq_true, ih,
      List.all_cons, List.all_nil, Bool.and_true, true_and]
    exact hexChar_isHex (Nat.mod_lt _ (by omega))

theorem hexFoldl_append_single (A : List Char) (c : Char) (acc : Nat) :
    (A ++ [c]).foldl (fun a ch => 16 * a + hexVal ch) acc =
      16 * (A.foldl (fun a ch => 16 * a + hexVal ch) acc) + hexVal c := by
  induction A generalizing acc with
  | nil => rfl
  | cons a t ih => simp [List.foldl, ih]

theorem toWireAux_decode (k x : Nat) :
    (toWireAux k x).foldl (fun a ch => 16 * a + hexVal ch) 0 = x % 16 ^ k := by
  induction k generalizing x with
  | zero => simp [toWireAux, Nat.mod_one]
  | succ k ih =>
    rw [toWireAux, hexFoldl_append_single, ih,
      hexVal_hexChar (Nat.mod_lt _ (by omega))]
    have h2 : (16 : Nat) ^ (k + 1) = 16 * 16 ^ k := by ring
    rw [h2, Nat.mod_mul]
    omega

theorem toWire_valid (x : Nat) : isValidObjectId (toWire x) = true := by
  simp [isValidObjectId, toWire, toWireAux_length, toWireAux_all_hex]

-- ── Construction-level lemmas ────────────────────────────────────────────

theorem buildUserCreate_spec (m : FieldMap) :
    (createFieldErrors m = [] ∧ ∃ u, buildUserCreate m = .ok u) ∨
    (createFieldErrors m ≠ [] ∧
      buildUserCreate m = .error (createFieldErrors m)) := by
  unfold buildUserCreate createFieldErrors
  cases hfn : reqField m "full_name" validateCreateFullName <;>
  cases hem : reqField m "email" validateCreateEmail <;>
  cases hrl : optField m "role" UserRole.intern validateRole <;>
  cases hia : optField m "is_active" true validateBool <;>
  cases hav : optField m "avatar_url" none validateAvatar <;>
  cases hpw : reqField m "password" validatePassword <;>
  simp [errOf]

theorem getField_append_other (m : FieldMap) (k : String) (x : String × Value)
    (h : ¬ x.1 = k) : getField (m ++ [x]) k = getField m k := by
  induction m with
  | nil => simp [getField, h]
  | cons p rest ih =>
    by_cases hp : p.1 = k
    · simp [getField, hp]
    · simp [getField, hp, ih]

theorem reqField_append_other {α : Type} (m : FieldMap) (name : String)
    (x : String × Value) (f : Value → Except FieldError α) (h : ¬ x.1 = name) :
    reqField (m ++ [x]) name f = reqField m name f := by
  unfold reqField
  rw [getField_append_other m name x h]

theorem optField_append_other {α : Type} (m : FieldMap) (name : String)
    (x : String × Value) (d : α) (f : Value → Except FieldError α)
    (h : ¬ x.1 = name) :
    optField (m ++ [x]) name d f = optField m name d f := by
  unfold optField
  rw [getField_append_other m name x h]

theorem storedIdField_ok_none (m : FieldMap) (idv : Option String)
    (h : storedIdField m = .ok idv) : idv = none := by
  unfold storedIdField at h
  cases hga : getAliasField m "_id" "id" with
  | none =>
    rw [hga] at h
    have h2 : (none : Option String) = idv := by injection h
    exact h2.symm
  | some v =>
    rw [hga] at h
    cases v with
    | vNone =>
      have h2 : (none : Option String) = idv := by injection h
      exact h2.symm
    | vStr s => exact StoredIdOutcome.noConfusion h
    | vBool b => exact StoredIdOutcome.noConfusion h
    | vOid n => exact StoredIdOutcome.noConfusion h
    | vDatetime n => exact StoredIdOutcome.noConfusion h

theorem storedIdField_typeError (m : FieldMap) (v : Value)
    (hga : getAliasField m "_id" "id" = some v) (hv : ¬ v = Value.vNone) :
    storedIdField m = .typeError := by
  unfold storedIdField
  rw [hga]
  cases v with
  | vNone => exact absurd rfl hv
  | vStr s => rfl
  | vBool b => rfl
  | vOid n => rfl
  | vDatetime n => rfl

theorem buildUserInDB_ok_id_none (now : Nat) (m : FieldMap) (u : UserInDB)
    (h : buildUserInDB now m = .ok u) : u.id = none := by
  unfold buildUserInDB at h
  cases hs : storedIdField m with
  | typeError =>
    rw [hs] at h
    exact StoredResult.noConfusion h
  | ok idv =>
    rw [hs] at h
    split at h
    · cases h
    · rename_i idv2 heq
      injection heq with heq2
      subst heq2
      split at h
      · cases h
        exact storedIdField_ok_none m _ hs
      · cases h

-- ── Claim theorems ───────────────────────────────────────────────────────

/-- C1 (amended): a Create payload with no "password" key fails with a
composite error containing a MissingField error naming "password"; an
extra "identifier" key is NOT rejected with a ForbiddenField error —
the models declare no `extra` configuration, so Pydantic's default
silently ignores unknown keys and construction behaves exactly as if
the key were absent. -/
theorem create_missing_password_extra_identifier :
    (∀ m : FieldMap, getField m "password" = none →
      ∃ es, buildUserCreate m = .error es ∧
        (⟨"password", .missingField⟩ : FieldError) ∈ es) ∧
    (∀ (m : FieldMap) (v : Value),
      buildUserCreate (m ++ [("identifier", v)]) = buildUserCreate m) := by
  constructor
  · intro m hm
    have hpw : reqField m "password" validatePassword =
        .error ⟨"password", .missingField⟩ := by
      simp [reqField, hm]
    have hmem : (⟨"password", .missingField⟩ : FieldError) ∈
        createFieldErrors m := by
      simp [createFieldErrors, errOf, hpw]
    rcases buildUserCreate_spec m with ⟨he, _⟩ | ⟨_, heq⟩
    · rw [he] at hmem
      exact absurd hmem (List.not_mem_nil _)
    · exact ⟨_, heq, hmem⟩
  · intro m v
    have h1 := reqField_append_other m "full_name" ("identifier", v)
      validateCreateFullName (show ¬ ("identifier" : String) = "full_name" by decide)
    have h2 := reqField_append_other m "email" ("identifier", v)
      validateCreateEmail (show ¬ ("identifier" : String) = "email" by decide)
    have h3 := optField_append_other m "role" ("identifier", v)
      UserRole.intern validateRole (show ¬ ("identifier" : String) = "role" by decide)
    have h4 := optField_append_other m "is_active" ("identifier", v)
      true validateBool (show ¬ ("identifier" : String) = "is_active" by decide)
    have h5 := optField_append_other m "avatar_url" ("identifier", v)
      none validateAvatar (show ¬ ("identifier" : String) = "avatar_url" by decide)
    have h6 := reqField_append_other m "password" ("identifier", v)
      validatePassword (show ¬ ("identifier" : String) = "password" by decide)
    unfold buildUserCreate
    rw [h1, h2, h3, h4, h5, h6]

/-- Witness for C1: the missing-password branch at a concrete payload,
and the identifier-key-ignored branch at a concrete valid payload. -/
theorem create_missing_password_extra_identifier_witness :
    (∃ es, buildUserCreate [("full_name", Value.vStr "Jane Doe"),
        ("email", Value.vStr "jane@b.com")] = .error es ∧
      (⟨"password", .missingField⟩ : FieldError) ∈ es) ∧
    buildUserCreate ([("full_name", Value.vStr "Jane Doe"),
        ("email", Value.vStr "jane@b.com"),
        ("password", Value.vStr "Abcdefg1")] ++
        [("identifier", Value.vStr "x")]) =
      buildUserCreate [("full_name", Value.vStr "Jane Doe"),
        ("email", Value.vStr "jane@b.com"),
        ("password", Value.vStr "Abcdefg1")] :=
  ⟨create_missing_password_extra_identifier.1 _ rfl,
   create_missing_password_extra_identifier.2 _ _⟩

/-- Counterexample to C1 as stated: a Create payload carrying an
"identifier" key is accepted (the key is silently dropped), instead of
failing with a ForbiddenField error naming "identifier". -/
theorem create_extra_identifier_not_rejected :
    buildUserCreate [("full_name", .vStr "Jane Doe"),
      ("email", .vStr "jane@b.com"), ("password", .vStr "Abcdefg1"),
      ("identifier", .vStr "507f1f77bcf86cd799439011")] =
    .ok ⟨"Jane Doe", "jane@b.com", .intern, true, none, "Abcdefg1"⟩ := rfl

/-- C2 (amended): `UserResponse.id` is declared as a plain `str`, so
Public construction accepts ANY string as the identifier — no wire-form
validity check is performed on it. -/
theorem response_id_accepts_any_string :
    ∀ s : String,
      buildUserResponse [("id", .vStr s), ("full_name", .vStr "Jane Doe"),
        ("email", .vStr "jane@b.com"), ("role", .vStr "admin"),
        ("is_active", .vBool true), ("avatar_url", .vNone),
        ("created_at", .vDatetime 0), ("updated_at", .vDatetime 0)] =
      .ok ⟨s, "Jane Doe", "jane@b.com", .admin, true, none, 0, 0⟩ :=
  fun _ => rfl

/-- Counterexample to C2 as stated: "zzz" is not a syntactically valid
wire identifier, yet Public construction with `id = "zzz"` succeeds
rather than reporting a validation failure. -/
theorem response_invalid_id_accepted :
    isValidObjectId "zzz" = false ∧
    buildUserResponse [("id", .vStr "zzz"), ("full_name", .vStr "Jane Doe"),
      ("email", .vStr "jane@b.com"), ("role", .vStr "admin"),
      ("is_active", .vBool true), ("avatar_url", .vNone),
      ("created_at", .vDatetime 0), ("updated_at", .vDatetime 0)] =
    .ok ⟨"zzz", "Jane Doe", "jane@b.com", .admin, true, none, 0, 0⟩ :=
  ⟨rfl, rfl⟩

/-- C3 (amended): a present `full_name` in an Update payload is
validated with exactly Create's rule, but a present email is only
format-checked — `UserUpdate` extends `BaseModel`, not `UserBase`, so
the trim/lower-case normalisation does not run; for any raw email
accepted by both shapes, Create's stored value is the normalisation of
Update's stored value (and the two differ whenever the raw email is
not already canonical). -/
theorem update_rules_vs_create :
    (∀ s : String, validateUpdateFullName (.vStr s) =
      (validateCreateFullName (.vStr s)).map some) ∧
    (∀ (s r₁ r₂ : String), validateCreateEmail (.vStr s) = .ok r₁ →
      validateUpdateEmail (.vStr s) = .ok (some r₂) →
      r₁ = normalise_email r₂) := by
  constructor
  · intro s
    by_cases h : s.length < 2 ∨ 100 < s.length
    · simp [validateUpdateFullName, validateCreateFullName, h, Except.map]
    · simp [validateUpdateFullName, validateCreateFullName, h, Except.map]
  · intro s r1 r2 h1 h2
    simp only [validateCreateEmail] at h1
    simp only [validateUpdateEmail] at h2
    by_cases hf1 : emailFormatOk (normalise_email s)
    · simp only [hf1, if_true] at h1
      by_cases hf2 : emailFormatOk s
      · simp only [hf2, if_true] at h2
        have e1 : normalise_email s = r1 := by injection h1
        have e2 : some s = some r2 := by injection h2
        have e3 : s = r2 := by injection e2
        rw [← e1, ← e3]
      · simp [hf2] at h2
    · simp [hf1] at h1

/-- Witness for C3: at the raw email "A@b.com", Create stores
"a@b.com", Update stores "A@b.com", and indeed the former is the
normalisation of the latter. -/
theorem update_rules_vs_create_witness :
    ("a@b.com" : String) = normalise_email "A@b.com" :=
  update_rules_vs_create.2 "A@b.com" "a@b.com" "A@b.com" rfl rfl

/-- Counterexample to C3 as stated: the raw email "A@b.com" is accepted
by both Create and Update, but the stored values differ — Create
lower-cases it, Update keeps it verbatim. -/
theorem update_email_not_normalised :
    buildUserCreate [("full_name", .vStr "Jane Doe"),
      ("email", .vStr "A@b.com"), ("password", .vStr "Abcdefg1")] =
      .ok ⟨"Jane Doe", "a@b.com", .intern, true, none, "Abcdefg1"⟩ ∧
    buildUserUpdate [("email", .vStr "A@b.com")] =
      .ok ⟨none, some "A@b.com", none, none, none⟩ ∧
    ("a@b.com" : String) ≠ "A@b.com" :=
  ⟨rfl, rfl, by decide⟩

/-- C4: every Public shape derived from a Stored shape serialises
exactly the fields {id, full_name, email, role, is_active, avatar_url,
created_at, updated_at} — in particular no field named
"hashed_password" — with the identifier exposed under the name "id". -/
theorem public_shape_field_names :
    ∀ (u : UserInDB) (r : UserResponse), deriveUserResponse u = .ok r →
      (dumpResponse r).map Prod.fst =
        ["id", "full_name", "email", "role", "is_active", "avatar_url",
         "created_at", "updated_at"] ∧
      "hashed_password" ∉ (dumpResponse r).map Prod.fst := by
  intro u r _
  refine ⟨rfl, ?_⟩
  rw [show (dumpResponse r).map Prod.fst =
    ["id", "full_name", "email", "role", "is_active", "avatar_url",
     "created_at", "updated_at"] from rfl]
  decide

/-- Witness for C4: the derivation succeeds on a concrete stored
document (which carries a hashed_password) and the resulting public
field list omits it. -/
theorem public_shape_field_names_witness :
    (dumpResponse (⟨"507f1f77bcf86cd799439011", "Jane Doe", "jane@b.com",
        .intern, true, none, 0, 0⟩ : UserResponse)).map Prod.fst =
      ["id", "full_name", "email", "role", "is_active", "avatar_url",
       "created_at", "updated_at"] ∧
    "hashed_password" ∉ (dumpResponse (⟨"507f1f77bcf86cd799439011",
        "Jane Doe", "jane@b.com", .intern, true, none, 0, 0⟩ :
        UserResponse)).map Prod.fst :=
  public_shape_field_names
    ⟨"Jane Doe", "jane@b.com", .intern, true, none,
     some "507f1f77bcf86cd799439011", "h", 0, 0⟩ _ rfl

/-- C5: `fromWire` (that is, `PyObjectId.validate` on a string) accepts
a candidate exactly when it is 24 characters of hex, returns the
candidate itself on success, and fails with an InvalidIdentifier error
otherwise. -/
theorem fromWire_ok_iff_valid :
    ∀ s : String,
      (fromWire s = .ok s ↔
        s.data.length = 24 ∧ ∀ c ∈ s.data, isHexChar c = true) ∧
      (¬ (s.data.length = 24 ∧ ∀ c ∈ s.data, isHexChar c = true) →
        fromWire s = .error ⟨"id", .invalidIdentifier⟩) := by
  intro s
  have hiff : isValidObjectId s = true ↔
      s.data.length = 24 ∧ ∀ c ∈ s.data, isHexChar c = true := by
    simp [isValidObjectId, List.all_eq_true]
  by_cases hv : isValidObjectId s
  · refine ⟨iff_of_true ?_ (hiff.mp hv), fun hns => absurd (hiff.mp hv) hns⟩
    simp [fromWire, PyObjectId.validate, hv]
  · have hv' : isValidObjectId s = false := by simpa using hv
    refine ⟨iff_of_false ?_ ?_, fun _ => ?_⟩
    · intro hok
      simp [fromWire, PyObjectId.validate, hv'] at hok
    · intro hp
      exact hv (hiff.mpr hp)
    · simp [fromWire, PyObjectId.validate, hv']

/-- Witness for C5: a valid 24-hex candidate is accepted unchanged and
an invalid one ("zzz") fails with InvalidIdentifier. -/
theorem fromWire_ok_iff_valid_witness :
    fromWire "507f1f77bcf86cd799439011" = .ok "507f1f77bcf86cd799439011" ∧
    fromWire "zzz" = .error ⟨"id", .invalidIdentifier⟩ :=
  ⟨(fromWire_ok_iff_valid "507f1f77bcf86cd799439011").1.mpr (by decide),
   (fromWire_ok_iff_valid "zzz").2 (by decide)⟩

/-- C6: the identifier codec round-trips — for every internal
identifier value `x` (a 12-byte ObjectId, i.e. `x < 16 ^ 24`), encoding
with `toWire` and decoding back through `fromWire` recovers `x`;
`toWire` is a total function, hence deterministic. -/
theorem toWire_fromWire_roundtrip :
    ∀ x : Nat, x < 16 ^ 24 → fromWireDecoded (toWire x) = some x := by
  intro x hx
  have h1 : fromWire (toWire x) = .ok (toWire x) := by
    unfold fromWire PyObjectId.validate
    simp [toWire_valid x]
  unfold fromWireDecoded
  rw [h1]
  show some (hexDecode (toWire x)) = some x
  have h2 : hexDecode (toWire x) = x := by
    show (toWireAux 24 x).foldl (fun a ch => 16 * a + hexVal ch) 0 = x
    rw [toWireAux_decode]
    exact Nat.mod_eq_of_lt hx
  rw [h2]

/-- Witness for C6: the round trip at the concrete identifier 123456. -/
theorem toWire_fromWire_roundtrip_witness :
    fromWireDecoded (toWire 123456) = some 123456 :=
  toWire_fromWire_roundtrip 123456 (by norm_num)

/-- C7: for any password of length at least 8, password validation
succeeds returning the input unchanged exactly when the password has at
least one decimal digit and at least one uppercase letter; lowercase
letters are not required — "abcdefgh" is rejected, "Abcdefg1" and
"ABCDEFG1" are accepted. -/
theorem password_policy_spec :
    (∀ v : String, 8 ≤ v.length →
      (validatePassword (.vStr v) = .ok v ↔
        v.data.any pyIsDigit = true ∧ v.data.any pyIsUpper = true)) ∧
    validatePassword (.vStr "abcdefgh") =
      .error ⟨"password", .weakPassword⟩ ∧
    validatePassword (.vStr "Abcdefg1") = .ok "Abcdefg1" ∧
    validatePassword (.vStr "ABCDEFG1") = .ok "ABCDEFG1" := by
  refine ⟨?_, rfl, rfl, rfl⟩
  intro v hv
  have h8 : ¬ v.length < 8 := by omega
  simp only [validatePassword, h8, if_false, password_strength]
  by_cases hd : v.data.any pyIsDigit
  · by_cases hu : v.data.any pyIsUpper
    · simp [hd, hu]
    · have hu' : v.data.any pyIsUpper = false := by simpa using hu
      simp [hd, hu']
  · have hd' : v.data.any pyIsDigit = false := by simpa using hd
    simp [hd']

/-- Witness for C7: the quantified part applied at "Abcdefg1". -/
theorem password_policy_spec_witness :
    validatePassword (.vStr "Abcdefg1") = .ok "Abcdefg1" :=
  (password_policy_spec.1 "Abcdefg1" (by decide)).mpr (by decide)

/-- C8: email normalisation (strip then lower-case) is idempotent,
always succeeds, produces a string with no uppercase letters and no
leading or trailing whitespace, and runs before the email-format check
(which therefore sees the canonical form). -/
theorem normalise_email_canonical :
    ∀ e : String,
      normalise_email (normalise_email e) = normalise_email e ∧
      (normalise_email e).data.all (fun c => !pyIsUpper c) = true ∧
      lstrip (normalise_email e).data = (normalise_email e).data ∧
      rstrip (normalise_email e).data = (normalise_email e).data ∧
      validateCreateEmail (.vStr e) =
        (if emailFormatOk (normalise_email e) then .ok (normalise_email e)
         else .error ⟨"email", .invalidFormat⟩) := by
  intro e
  refine ⟨?_, ?_, ?_, ?_, rfl⟩
  · show (⟨pyLower (pyStrip (pyLower (pyStrip e.data)))⟩ : String) =
      ⟨pyLower (pyStrip e.data)⟩
    rw [pyStrip_pyLower, pyLower_pyLower, pyStrip_pyStrip]
  · show (pyLower (pyStrip e.data)).all (fun c => !pyIsUpper c) = true
    unfold pyLower
    rw [List.all_map]
    simp [List.all_eq_true, Function.comp, pyIsUpper_pyToLower]
  · show lstrip (pyLower (pyStrip e.data)) = pyLower (pyStrip e.data)
    rw [lstrip_pyLower]
    congr 1
    exact lstrip_rstrip_of_lstrip_fixed (lstrip_lstrip e.data)
  · show rstrip (pyLower (pyStrip e.data)) = pyLower (pyStrip e.data)
    rw [rstrip_pyLower]
    congr 1
    exact rstrip_rstrip (lstrip e.data)

/-- C9 (amended): the Stored shape's identifier is optional with
default `None` — construction from a payload with no `_id`/`id` key
succeeds with identifier `None` — and a supplied non-`None` identifier
is never validated: Pydantic v2 invokes the v1-style
`__get_validators__` hook as `validate(value, info)`, so construction
raises `TypeError` for every supplied identifier value, syntactically
valid or not; consequently every successfully constructed Stored shape
carries no identifier at all. -/
theorem stored_id_none_or_crash :
    (∀ (now : Nat) (m : FieldMap) (u : UserInDB),
      buildUserInDB now m = .ok u → u.id = none) ∧
    (∀ (now : Nat) (m : FieldMap) (v : Value),
      getAliasField m "_id" "id" = some v → ¬ v = Value.vNone →
      buildUserInDB now m = .typeError) := by
  constructor
  · exact buildUserInDB_ok_id_none
  · intro now m v hga hv
    unfold buildUserInDB
    rw [storedIdField_typeError m v hga hv]

/-- Witness for C9: a stored document built without an identifier key
carries `None`, and supplying a syntactically VALID identifier under
`_id` still crashes with `TypeError` instead of validating. -/
theorem stored_id_none_or_crash_witness :
    (⟨"Jane Doe", "jane@b.com", .intern, true, none, none, "h", 7, 7⟩ :
      UserInDB).id = none ∧
    buildUserInDB 7 [("_id", Value.vStr "507f1f77bcf86cd799439011"),
      ("full_name", Value.vStr "Jane Doe"),
      ("email", Value.vStr "jane@b.com"),
      ("hashed_password", Value.vStr "h")] = .typeError :=
  ⟨stored_id_none_or_crash.1 7
      [("full_name", Value.vStr "Jane Doe"),
       ("email", Value.vStr "jane@b.com"),
       ("hashed_password", Value.vStr "h")] _ rfl,
   stored_id_none_or_crash.2 7
      [("_id", Value.vStr "507f1f77bcf86cd799439011"),
       ("full_name", Value.vStr "Jane Doe"),
       ("email", Value.vStr "jane@b.com"),
       ("hashed_password", Value.vStr "h")]
      (Value.vStr "507f1f77bcf86cd799439011") rfl (by decide)⟩

/-- Counterexample to C9 as stated: constructing a Stored shape from a
field mapping supplying no identifier succeeds (with identifier `None`)
instead of failing with a MissingField error. -/
theorem stored_without_id_succeeds :
    buildUserInDB 7 [("full_name", .vStr "Jane Doe"),
      ("email", .vStr "jane@b.com"), ("hashed_password", .vStr "h")] =
    .ok ⟨"Jane Doe", "jane@b.com", .intern, true, none, none, "h", 7, 7⟩ :=
  rfl

/-- C10: Create construction aggregates all field-level failures into
one composite error — for every payload whose full_name and password
are both invalid (the claim's example pair), the reported error list
contains both fields' errors, not only the first. -/
theorem create_aggregates_field_errors :
    ∀ (m : FieldMap) (e₁ e₂ : FieldError),
      reqField m "full_name" validateCreateFullName = .error e₁ →
      reqField m "password" validatePassword = .error e₂ →
      ∃ es, buildUserCreate m = .error es ∧ e₁ ∈ es ∧ e₂ ∈ es := by
  intro m e1 e2 h1 h2
  have hm1 : e1 ∈ createFieldErrors m := by
    simp [createFieldErrors, errOf, h1]
  have hm2 : e2 ∈ createFieldErrors m := by
    simp [createFieldErrors, errOf, h2]
  rcases buildUserCreate_spec m with ⟨he, _⟩ | ⟨_, heq⟩
  · rw [he] at hm1
    exact absurd hm1 (List.not_mem_nil _)
  · exact ⟨_, heq, hm1, hm2⟩

/-- Witness for C10: a payload with a too-short full_name and a weak
password fails with a composite error reporting both fields. -/
theorem create_aggregates_field_errors_witness :
    ∃ es, buildUserCreate [("full_name", Value.vStr "J"),
        ("email", Value.vStr "jane@b.com"),
        ("password", Value.vStr "weakpass")] = .error es ∧
      (⟨"full_name", .invalidLength⟩ : FieldError) ∈ es ∧
      (⟨"password", .weakPassword⟩ : FieldError) ∈ es :=
  create_aggregates_field_errors _ _ _ rfl rfl

end ERPUsers
